import Mathlib

/-! Domains & Subdomains Discovery API client: the request pipeline.

A shallow embedding of `domaindiscovery.go`, `models.go` and `options.go`.

* Go pointers that may be nil (`*SearchTerms`, `*Response`, `*http.Response`) are `Option`s,
  a Go `error` is an `Option Error`, multiple return values are tuples.
* A Go slice is a `List`; a nil slice and an empty slice both have length 0.
* A closure mutating `*domainDiscoveryRequest` is a function from the envelope to the envelope.
* The collaborators that are not part of these sources (the standard library's JSON codec and
  Unicode case table, the HTTP client of `client.go`) are parameters of the model; every theorem
  holds for all of them.
* Every call that leaves the package (applying an option, serialising, building and sending the
  HTTP request) is recorded in a trace returned next to the result.
-/

set_option linter.dupNamespace false

namespace domaindiscovery

/-! ## models.go -/

/-- SearchTerms is a set of included and excluded search terms. -/
structure SearchTerms where
  Include : List String
  Exclude : List String
  deriving DecidableEq, Repr

/-- The request struct for Domains & Subdomains Discovery API. -/
structure domainDiscoveryRequest where
  APIKey : String
  Domains : Option SearchTerms
  Subdomains : Option SearchTerms
  OutputFormat : String
  SinceDate : String
  deriving DecidableEq, Repr

/-- DomainDiscoveryResponse is a response of Domains & Subdomains Discovery API. -/
structure DomainDiscoveryResponse where
  DomainsList : List String
  DomainsCount : Int
  deriving DecidableEq, Repr

/-- ErrorMessage is the error message. -/
structure ErrorMessage where
  Code : Int
  Message : String
  deriving DecidableEq, Repr

/-- The struct `apiResponse` of domaindiscovery.go: both embedded structs side by side. -/
structure apiResponse where
  toDomainDiscoveryResponse : DomainDiscoveryResponse
  toErrorMessage : ErrorMessage
  deriving DecidableEq, Repr

/-- ArgError is the argument error. -/
structure ArgError where
  Name : String
  Message : String
  deriving DecidableEq, Repr

/-! ## Decimal rendering (`%d` of fmt, `appendInt` of time) -/

/-- The ASCII digit of a number below ten. -/
def digitChar (n : Nat) : Char := Char.ofNat (48 + n % 10)

/-- Decimal digits of `n`, most significant first, at least one digit; `fuel` bounds the
number of digits produced. -/
def decDigits : Nat → Nat → List Char
  | 0, n => [digitChar n]
  | fuel + 1, n => if n < 10 then [digitChar n] else decDigits fuel (n / 10) ++ [digitChar n]

/-- Decimal digits of a natural number. -/
def natDigits (n : Nat) : List Char := decDigits n n

/-- The verb `%d` of `fmt.Sprintf` on an `int`: a minus sign for negatives, then the digits. -/
def formatInt (x : Int) : String :=
  String.mk ((if x < 0 then ['-'] else []) ++ natDigits x.natAbs)

/-- Go `appendInt(b, x, width)` of package time: sign, zero padding up to `width` digits,
digits. -/
def appendInt (x : Int) (width : Nat) : List Char :=
  (if x < 0 then ['-'] else [])
    ++ List.replicate (width - (natDigits x.natAbs).length) '0'
    ++ natDigits x.natAbs

/-! ## Errors -/

/-- An error value created outside these sources (standard library, HTTP client), kept by its
text. -/
structure OtherError where
  text : String
  deriving DecidableEq, Repr

/-- The values a Go `error` returned by this package can hold. -/
inductive Error where
  /-- A `*ArgError`. -/
  | arg (a : ArgError)
  /-- A `*ErrorMessage`. -/
  | api (e : ErrorMessage)
  /-- The value of `fmt.Errorf(pfx + "%w", cause)`. -/
  | wrap (pfx : String) (cause : OtherError)
  /-- An error of a collaborator, passed on as it is. -/
  | other (e : OtherError)
  deriving DecidableEq, Repr

/-- Error returns error message as a string (`ArgError.Error`). -/
def ArgError.Error (a : ArgError) : String :=
  "invalid argument: \"" ++ a.Name ++ "\" " ++ a.Message

/-- Error returns error message as a string (`ErrorMessage.Error`):
`fmt.Sprintf("API error: [%d] %s", e.Code, e.Message)`. -/
def ErrorMessage.Error (e : ErrorMessage) : String :=
  "API error: [" ++ formatInt e.Code ++ "] " ++ e.Message

/-- The method `Error()` of an error value. -/
def Error.Error : Error → String
  | .arg a => a.Error
  | .api e => e.Error
  | .wrap pfx cause => pfx ++ cause.text
  | .other e => e.text

/-! ## The collaborators -/

/-- The byte slices of the package. -/
abbrev Bytes := List UInt8

/-- The parts of the Go standard library the package calls and the model leaves open:
`unicode.ToUpper`, which `strings.ToUpper` maps over a string that is not ASCII only,
`json.Marshal` on the request struct and `json.NewDecoder(..).Decode` into an `apiResponse`. -/
structure Stdlib where
  unicodeToUpper : Char → Char
  jsonMarshal : domainDiscoveryRequest → Except OtherError Bytes
  jsonDecode : Bytes → Except OtherError apiResponse

/-- What the package reads of an `http.Response`. -/
structure HTTPResponse where
  StatusCode : Int
  Header : List (String × String)
  deriving DecidableEq, Repr

/-- An `http.Request` as the package builds it. -/
structure HTTPRequest where
  Method : String
  URL : String
  Body : Bytes
  deriving DecidableEq, Repr

/-- The outcome of `client.Do(ctx, req, &b)`: without error a response and the bytes written
to the buffer; with an error the (possibly nil) response, the bytes written so far and the
error. -/
inductive DoResult where
  | ok (resp : HTTPResponse) (written : Bytes)
  | fail (resp : Option HTTPResponse) (written : Bytes) (err : OtherError)
  deriving DecidableEq, Repr

/-- Modelled from the spec: the `Client` of client.go, which is not among the sources. It holds
the API key and the transport adapter (section 4.3): `NewRequest` builds the POST request for a
URL and a body, `Do` executes it under the caller's context and captures the body. -/
structure Client where
  apiKey : String
  NewRequest : String → String → Bytes → Except OtherError HTTPRequest
  Do : HTTPRequest → DoResult

/-- Modelled from the spec: `checkResponse` of client.go, which is not among the sources: a
status outside the success range 200..299 fails with `API failed with status code: <status>`. -/
def checkResponse (r : HTTPResponse) : Option Error :=
  if 200 ≤ r.StatusCode ∧ r.StatusCode ≤ 299 then none
  else some (.other ⟨"API failed with status code: " ++ formatInt r.StatusCode⟩)

/-! ## options.go -/

/-- Option adds parameters to the query (the Go type `Option`). -/
abbrev RequestOption := domainDiscoveryRequest → domainDiscoveryRequest

/-- The instant of a `time.Time` as `Format` reads it for a date layout: the civil date in the
time's location, as `t.Date()` returns it, the year being any `int`. -/
structure Time where
  year : Int
  month : Nat
  day : Nat
  month_range : 1 ≤ month ∧ month ≤ 12
  day_range : 1 ≤ day ∧ day ≤ 31
  deriving DecidableEq, Repr

/-- The constant `dateFormat`. -/
def dateFormat : String := "2006-01-02"

/-- Go `strings.ToUpper`: an ASCII-only string has its letters `a..z` shifted to `A..Z`, any
other string is mapped rune by rune through `unicode.ToUpper`. -/
def ToUpper (std : Stdlib) (s : String) : String :=
  if s.data.all (fun c => c.toNat < 128) then
    String.mk (s.data.map (fun c => if 97 ≤ c.toNat ∧ c.toNat ≤ 122 then Char.ofNat (c.toNat - 32) else c))
  else
    String.mk (s.data.map std.unicodeToUpper)

/-- The layout scan of `Time.Format` for the verbs of `dateFormat`: `2006` is the year in at
least four digits, `01` the zero-padded month, `02` the zero-padded day; any other character of
the layout is copied. Layouts with other verbs are outside the model. -/
def formatChunks (t : Time) : List Char → List Char
  | '2' :: '0' :: '0' :: '6' :: rest => appendInt t.year 4 ++ formatChunks t rest
  | '0' :: '1' :: rest => appendInt t.month 2 ++ formatChunks t rest
  | '0' :: '2' :: rest => appendInt t.day 2 ++ formatChunks t rest
  | c :: rest => c :: formatChunks t rest
  | [] => []

/-- Go `Time.Format` on a layout made of the verbs above. -/
def Time.Format (t : Time) (layout : String) : String :=
  String.mk (formatChunks t layout.data)

/-- OptionOutputFormat sets Response output format JSON | XML. Default: JSON. -/
def OptionOutputFormat (std : Stdlib) (outputFormat : String) : RequestOption :=
  fun v => { v with OutputFormat := ToUpper std outputFormat }

/-- OptionSinceDate results search through domains/subdomains discovered since the given date. -/
def OptionSinceDate (date : Time) : RequestOption :=
  fun v => { v with SinceDate := date.Format dateFormat }

/-! ## domaindiscovery.go -/

/-- Response is the http.Response wrapper with Body saved as a byte slice. -/
structure Response where
  Response : Option HTTPResponse
  Body : Bytes
  deriving DecidableEq, Repr

/-- The type implementing the DomainDiscovery interface. -/
structure domainDiscoveryServiceOp where
  client : Client
  baseURL : String

/-- The calls of one `request` that leave the package, in the order they are made. -/
inductive Event where
  /-- The call `opt(request)` of one option, with the envelope it leaves. -/
  | applied (v : domainDiscoveryRequest)
  /-- The call `json.Marshal(request)`: the envelope handed over for transmission. -/
  | marshal (v : domainDiscoveryRequest)
  /-- The call `service.newRequest(requestBody)`. -/
  | newRequest (body : Bytes)
  /-- The call `service.client.Do(ctx, req, &b)`. -/
  | send (req : HTTPRequest)
  deriving DecidableEq, Repr

/-- The loop `for _, opt := range opts { opt(request) }`: the envelope it leaves and the calls
it makes. -/
def applyOptions : List RequestOption → domainDiscoveryRequest →
    domainDiscoveryRequest × List Event
  | [], v => (v, [])
  | opt :: opts, v =>
    let r := applyOptions opts (opt v)
    (r.1, Event.applied (opt v) :: r.2)

/-- newRequest creates the API request with default parameters and specified body. -/
def domainDiscoveryServiceOp.newRequest (service : domainDiscoveryServiceOp) (body : Bytes) :
    Except OtherError HTTPRequest :=
  match service.client.NewRequest "POST" service.baseURL body with
  | .error err => .error err
  | .ok req => .ok req

/-- request returns intermediate API response for further actions. -/
def domainDiscoveryServiceOp.request (std : Stdlib) (service : domainDiscoveryServiceOp)
    (domainTerms subdomainTerms : Option SearchTerms) (opts : List RequestOption) :
    (Option Response × Option Error) × List Event :=
  if (domainTerms.isNone && subdomainTerms.isNone) ||
      (domainTerms.isNone && subdomainTerms.any (fun s => s.Include.length == 0)) ||
      (subdomainTerms.isNone && domainTerms.any (fun d => d.Include.length == 0)) ||
      (domainTerms.any (fun d => subdomainTerms.any (fun s =>
        d.Include.length + s.Include.length == 0))) then
    ((none, some (.arg ⟨"domainTerms/subdomainTerms", "must contain at least one Include term"⟩)),
      [])
  else
    let request : domainDiscoveryRequest :=
      ⟨service.client.apiKey, domainTerms, subdomainTerms, "JSON", ""⟩
    let applied := applyOptions opts request
    let request := applied.1
    match std.jsonMarshal request with
    | .error err => ((none, some (.other err)), applied.2 ++ [.marshal request])
    | .ok requestBody =>
      match service.newRequest requestBody with
      | .error err =>
        ((none, some (.other err)), applied.2 ++ [.marshal request, .newRequest requestBody])
      | .ok req =>
        match service.client.Do req with
        | .fail resp b err =>
          ((some ⟨resp, b⟩, some (.other err)),
            applied.2 ++ [.marshal request, .newRequest requestBody, .send req])
        | .ok resp b =>
          ((some ⟨some resp, b⟩, none),
            applied.2 ++ [.marshal request, .newRequest requestBody, .send req])

/-- parse parses raw Domains & Subdomains Discovery API response. -/
def parse (std : Stdlib) (raw : Bytes) : Except Error apiResponse :=
  match std.jsonDecode raw with
  | .error err => .error (.wrap "cannot parse response: " err)
  | .ok response => .ok response

/-- Get returns parsed Domains & Subdomains Discovery API response. The second case is never
reached: `request` returns a response whenever it returns no error. -/
def domainDiscoveryServiceOp.Get (std : Stdlib) (service : domainDiscoveryServiceOp)
    (domainTerms subdomainTerms : Option SearchTerms) (opts : List RequestOption) :
    (Option DomainDiscoveryResponse × Option Response × Option Error) × List Event :=
  let optsJSON := opts ++ [OptionOutputFormat std "JSON"]
  let r := service.request std domainTerms subdomainTerms optsJSON
  match r.1 with
  | (resp, some err) => ((none, resp, some err), r.2)
  | (none, none) => ((none, none, none), r.2)
  | (some resp, none) =>
    match parse std resp.Body with
    | .error err => ((none, some resp, some err), r.2)
    | .ok domainDiscoveryResp =>
      if domainDiscoveryResp.toErrorMessage.Message ≠ "" ∨
          domainDiscoveryResp.toErrorMessage.Code ≠ 0 then
        ((none, none, some (.api ⟨domainDiscoveryResp.toErrorMessage.Code,
          domainDiscoveryResp.toErrorMessage.Message⟩)), r.2)
      else
        ((some domainDiscoveryResp.toDomainDiscoveryResponse, some resp, none), r.2)

/-- GetRaw returns raw Domains & Subdomains Discovery API response as the Response struct with
Body saved as a byte slice. The cases of a nil response without error are never reached:
`request` returns a response wrapping an `http.Response` whenever it returns no error. -/
def domainDiscoveryServiceOp.GetRaw (std : Stdlib) (service : domainDiscoveryServiceOp)
    (domainTerms subdomainTerms : Option SearchTerms) (opts : List RequestOption) :
    (Option Response × Option Error) × List Event :=
  let r := service.request std domainTerms subdomainTerms opts
  match r.1 with
  | (resp, some err) => ((resp, some err), r.2)
  | (none, none) => ((none, none), r.2)
  | (some resp, none) =>
    match resp.Response with
    | none => ((some resp, none), r.2)
    | some httpResp =>
      match checkResponse httpResp with
      | some respErr => ((some resp, some respErr), r.2)
      | none => ((some resp, none), r.2)

/-! ## Vocabulary of the specification -/

/-- The argument validator of the specification (section 4.1): both term sets absent, or one
absent and the Include list of the other empty, or both present and the sum of the lengths of
their Include lists zero. -/
def failsValidation : Option SearchTerms → Option SearchTerms → Prop
  | none, none => True
  | none, some s => s.Include.length = 0
  | some d, none => d.Include.length = 0
  | some d, some s => d.Include.length + s.Include.length = 0

instance (domainTerms subdomainTerms : Option SearchTerms) :
    Decidable (failsValidation domainTerms subdomainTerms) := by
  cases domainTerms <;> cases subdomainTerms <;> unfold failsValidation <;> infer_instance

/-- The number of Include entries of an optional term set; an absent set has none. -/
def includeCount : Option SearchTerms → Nat
  | none => 0
  | some t => t.Include.length

/-- The premise of the invariant of section 3 on Include terms: no Include entry of an
optional term set is a non-empty string; the list is absent, empty, or holds empty strings
only. -/
def noNonEmptyInclude : Option SearchTerms → Prop
  | none => True
  | some t => ∀ s ∈ t.Include, s = ""

instance (terms : Option SearchTerms) : Decidable (noNonEmptyInclude terms) := by
  cases terms <;> unfold noNonEmptyInclude <;> infer_instance

/-- The envelope with the default parameters, before any option. -/
def defaultEnvelope (service : domainDiscoveryServiceOp)
    (domainTerms subdomainTerms : Option SearchTerms) : domainDiscoveryRequest :=
  ⟨service.client.apiKey, domainTerms, subdomainTerms, "JSON", ""⟩

/-- The envelope after the options were applied in order to the default one. -/
def envelope (service : domainDiscoveryServiceOp)
    (domainTerms subdomainTerms : Option SearchTerms) (opts : List RequestOption) :
    domainDiscoveryRequest :=
  (applyOptions opts (defaultEnvelope service domainTerms subdomainTerms)).1

/-- The transport answers the envelope `v` without error: `v` is serialised, the request is
built and sent, and `Do` reports the response `resp` with the body `body`. -/
def Answers (std : Stdlib) (service : domainDiscoveryServiceOp) (v : domainDiscoveryRequest)
    (resp : HTTPResponse) (body : Bytes) : Prop :=
  ∃ requestBody req, std.jsonMarshal v = .ok requestBody ∧
    service.newRequest requestBody = .ok req ∧ service.client.Do req = .ok resp body

/-- The transport fails on the envelope `v`: `v` is serialised, the request is built and sent,
and `Do` reports the error `err` with the response `resp` and the bytes `written` so far. -/
def TransportFails (std : Stdlib) (service : domainDiscoveryServiceOp)
    (v : domainDiscoveryRequest) (resp : Option HTTPResponse) (written : Bytes)
    (err : OtherError) : Prop :=
  ∃ requestBody req, std.jsonMarshal v = .ok requestBody ∧
    service.newRequest requestBody = .ok req ∧ service.client.Do req = .fail resp written err

/-- The envelopes a trace hands over for transmission. -/
def marshalled : List Event → List domainDiscoveryRequest
  | [] => []
  | .marshal v :: evs => v :: marshalled evs
  | _ :: evs => marshalled evs

/-- The requests a trace sends. -/
def sent : List Event → List HTTPRequest
  | [] => []
  | .send req :: evs => req :: sent evs
  | _ :: evs => sent evs

/-- The options a caller can build with the package: the two constructors of options.go. -/
inductive OptionCall where
  | outputFormat (outputFormat : String)
  | sinceDate (date : Time)
  deriving DecidableEq, Repr

/-- The option an option call builds. -/
def OptionCall.toOption (std : Stdlib) : OptionCall → RequestOption
  | .outputFormat s => OptionOutputFormat std s
  | .sinceDate d => OptionSinceDate d

/-- The argument of the last `OptionOutputFormat` of a list of calls. -/
def lastOutputFormat : List OptionCall → Option String
  | [] => none
  | .outputFormat s :: calls => (lastOutputFormat calls).orElse (fun _ => some s)
  | .sinceDate _ :: calls => lastOutputFormat calls

/-- The argument of the last `OptionSinceDate` of a list of calls. -/
def lastSinceDate : List OptionCall → Option Time
  | [] => none
  | .sinceDate d :: calls => (lastSinceDate calls).orElse (fun _ => some d)
  | .outputFormat _ :: calls => lastSinceDate calls

/-! ## The test server of client_test.go -/

/-- The bytes of a string of ASCII characters. -/
def asciiBytes (s : String) : Bytes := s.data.map (fun c => UInt8.ofNat c.toNat)

/-- The constant `errResp` of the tests. -/
def errResp : String := "\x7b\"code\":499,\"messages\":\"Test error message.\"\x7d"

/-- The constant `respUnparsable` of the tests. -/
def respUnparsable : String := "<?xml version=\"1.0\" encoding=\"utf-8\"?><>"

/-- A success body in the shape of the constant `resp` of the tests, with five names. -/
def respOK : String :=
  "\x7b\"domainsCount\":5,\"domainsList\":[\"a.com\",\"b.com\",\"c.com\",\"d.com\",\"e.com\"]\x7d"

/-- The body the paths `partial` and `partial2` write: `response[:len(response)-10]`. -/
def respPartial : Bytes := (asciiBytes respOK).take ((asciiBytes respOK).length - 10)

/-- The standard library on the bodies of the test server: what the JSON decoder returns for
`respOK` and `errResp`, its error on the truncated body and its error on any other body, both
taken from the `wantErr` of the tests. -/
def testStdlib : Stdlib where
  unicodeToUpper := fun c => c
  jsonMarshal := fun _ => .ok []
  jsonDecode := fun raw =>
    if raw = asciiBytes respOK then
      .ok ⟨⟨["a.com", "b.com", "c.com", "d.com", "e.com"], 5⟩, ⟨0, ""⟩⟩
    else if raw = asciiBytes errResp then
      .ok ⟨⟨[], 0⟩, ⟨499, "Test error message."⟩⟩
    else if raw = respPartial then .error ⟨"unexpected EOF"⟩
    else .error ⟨"invalid character '<' looking for beginning of value"⟩

/-- The function `dummyServer` behind `newAPI(server, link)`: the status and body by path. The
path `partial` delivers the truncated body with status 200; the path `partial2` promises more
bytes than it delivers, so reading the response fails, as it does on a path the server does not
know. -/
def newAPI (link : String) : domainDiscoveryServiceOp where
  client :=
    { apiKey := "at_LoremIpsumDolorSitAmetConsect"
      NewRequest := fun method url body => .ok ⟨method, url, body⟩
      Do := fun req =>
        if req.URL = "/DomainDiscovery/ok" then .ok ⟨200, []⟩ (asciiBytes respOK)
        else if req.URL = "/DomainDiscovery/error" then .ok ⟨499, []⟩ (asciiBytes errResp)
        else if req.URL = "/DomainDiscovery/500" then .ok ⟨500, []⟩ (asciiBytes respUnparsable)
        else if req.URL = "/DomainDiscovery/unparsable" then
          .ok ⟨200, []⟩ (asciiBytes respUnparsable)
        else if req.URL = "/DomainDiscovery/partial" then .ok ⟨200, []⟩ respPartial
        else
          .fail (some ⟨200, []⟩) ((asciiBytes respOK).take 60)
            ⟨"cannot read response: unexpected EOF"⟩ }
  baseURL := link

/-! ## Lemmas on the request step -/

theorem applyOptions_append (opts₁ opts₂ : List RequestOption) (v : domainDiscoveryRequest) :
    applyOptions (opts₁ ++ opts₂) v =
      ((applyOptions opts₂ (applyOptions opts₁ v).1).1,
        (applyOptions opts₁ v).2 ++ (applyOptions opts₂ (applyOptions opts₁ v).1).2) := by
  induction opts₁ generalizing v with
  | nil => simp [applyOptions]
  | cons opt opts ih => simp [applyOptions, ih]

theorem marshalled_applyOptions (opts : List RequestOption) (v : domainDiscoveryRequest) :
    marshalled (applyOptions opts v).2 = [] := by
  induction opts generalizing v with
  | nil => simp [applyOptions, marshalled]
  | cons opt opts ih => simp [applyOptions, marshalled, ih]

theorem sent_applyOptions (opts : List RequestOption) (v : domainDiscoveryRequest) :
    sent (applyOptions opts v).2 = [] := by
  induction opts generalizing v with
  | nil => simp [applyOptions, sent]
  | cons opt opts ih => simp [applyOptions, sent, ih]

theorem marshalled_append (evs₁ evs₂ : List Event) :
    marshalled (evs₁ ++ evs₂) = marshalled evs₁ ++ marshalled evs₂ := by
  induction evs₁ with
  | nil => simp [marshalled]
  | cons ev evs ih => cases ev <;> simp [marshalled, ih]

theorem sent_append (evs₁ evs₂ : List Event) :
    sent (evs₁ ++ evs₂) = sent evs₁ ++ sent evs₂ := by
  induction evs₁ with
  | nil => simp [sent]
  | cons ev evs ih => cases ev <;> simp [sent, ih]

theorem request_of_failsValidation (std : Stdlib) (service : domainDiscoveryServiceOp)
    (domainTerms subdomainTerms : Option SearchTerms) (opts : List RequestOption)
    (h : failsValidation domainTerms subdomainTerms) :
    service.request std domainTerms subdomainTerms opts =
      ((none, some (.arg ⟨"domainTerms/subdomainTerms",
        "must contain at least one Include term"⟩)), []) := by
  cases domainTerms <;> cases subdomainTerms <;>
    simp_all [domainDiscoveryServiceOp.request, failsValidation]

theorem request_of_valid (std : Stdlib) (service : domainDiscoveryServiceOp)
    (domainTerms subdomainTerms : Option SearchTerms) (opts : List RequestOption)
    (h : ¬ failsValidation domainTerms subdomainTerms) :
    service.request std domainTerms subdomainTerms opts =
      (match std.jsonMarshal (envelope service domainTerms subdomainTerms opts) with
      | .error err =>
        ((none, some (.other err)),
          (applyOptions opts (defaultEnvelope service domainTerms subdomainTerms)).2 ++
            [.marshal (envelope service domainTerms subdomainTerms opts)])
      | .ok requestBody =>
        match service.newRequest requestBody with
        | .error err =>
          ((none, some (.other err)),
            (applyOptions opts (defaultEnvelope service domainTerms subdomainTerms)).2 ++
              [.marshal (envelope service domainTerms subdomainTerms opts),
                .newRequest requestBody])
        | .ok req =>
          match service.client.Do req with
          | .fail resp b err =>
            ((some ⟨resp, b⟩, some (.other err)),
              (applyOptions opts (defaultEnvelope service domainTerms subdomainTerms)).2 ++
                [.marshal (envelope service domainTerms subdomainTerms opts),
                  .newRequest requestBody, .send req])
          | .ok resp b =>
            ((some ⟨some resp, b⟩, none),
              (applyOptions opts (defaultEnvelope service domainTerms subdomainTerms)).2 ++
                [.marshal (envelope service domainTerms subdomainTerms opts),
                  .newRequest requestBody, .send req])) := by
  have hc : ((domainTerms.isNone && subdomainTerms.isNone) ||
      (domainTerms.isNone && subdomainTerms.any (fun s => s.Include.length == 0)) ||
      (subdomainTerms.isNone && domainTerms.any (fun d => d.Include.length == 0)) ||
      (domainTerms.any (fun d => subdomainTerms.any (fun s =>
        d.Include.length + s.Include.length == 0)))) = false := by
    cases domainTerms <;> cases subdomainTerms <;> simp_all [failsValidation]
  unfold domainDiscoveryServiceOp.request
  rw [if_neg (by rw [hc]; simp)]
  rfl

theorem trace_request_of_valid (std : Stdlib) (service : domainDiscoveryServiceOp)
    (domainTerms subdomainTerms : Option SearchTerms) (opts : List RequestOption)
    (h : ¬ failsValidation domainTerms subdomainTerms) :
    marshalled (service.request std domainTerms subdomainTerms opts).2 =
        [envelope service domainTerms subdomainTerms opts] ∧
      ∀ req ∈ sent (service.request std domainTerms subdomainTerms opts).2,
        ∃ requestBody,
          std.jsonMarshal (envelope service domainTerms subdomainTerms opts) = .ok requestBody ∧
          service.newRequest requestBody = .ok req := by
  rw [request_of_valid std service domainTerms subdomainTerms opts h]
  cases hm : std.jsonMarshal (envelope service domainTerms subdomainTerms opts) with
  | error err =>
    simp [marshalled_append, sent_append, marshalled_applyOptions, sent_applyOptions,
      marshalled, sent]
  | ok requestBody =>
    cases hn : service.newRequest requestBody with
    | error err =>
      simp [marshalled_append, sent_append, marshalled_applyOptions, sent_applyOptions,
        marshalled, sent, hn]
    | ok req =>
      cases hd : service.client.Do req <;>
        simp [marshalled_append, sent_append, marshalled_applyOptions, sent_applyOptions,
          marshalled, sent, hn, hd]

theorem trace_Get (std : Stdlib) (service : domainDiscoveryServiceOp)
    (domainTerms subdomainTerms : Option SearchTerms) (opts : List RequestOption) :
    (service.Get std domainTerms subdomainTerms opts).2 =
      (service.request std domainTerms subdomainTerms
        (opts ++ [OptionOutputFormat std "JSON"])).2 := by
  simp only [domainDiscoveryServiceOp.Get]
  split
  · rfl
  · rfl
  · split
    · rfl
    · split <;> rfl

theorem trace_GetRaw (std : Stdlib) (service : domainDiscoveryServiceOp)
    (domainTerms subdomainTerms : Option SearchTerms) (opts : List RequestOption) :
    (service.GetRaw std domainTerms subdomainTerms opts).2 =
      (service.request std domainTerms subdomainTerms opts).2 := by
  simp only [domainDiscoveryServiceOp.GetRaw]
  split
  · rfl
  · rfl
  · split
    · rfl
    · split <;> rfl

theorem envelope_append_one (service : domainDiscoveryServiceOp)
    (domainTerms subdomainTerms : Option SearchTerms) (opts : List RequestOption)
    (opt : RequestOption) :
    envelope service domainTerms subdomainTerms (opts ++ [opt]) =
      opt (envelope service domainTerms subdomainTerms opts) := by
  simp [envelope, applyOptions_append, applyOptions]

theorem ToUpper_JSON (std : Stdlib) : ToUpper std "JSON" = "JSON" := rfl

theorem applyOptions_calls (std : Stdlib) (calls : List OptionCall)
    (v : domainDiscoveryRequest) :
    (applyOptions (calls.map (OptionCall.toOption std)) v).1 =
      { v with
        OutputFormat :=
          match lastOutputFormat calls with
          | some s => ToUpper std s
          | none => v.OutputFormat
        SinceDate :=
          match lastSinceDate calls with
          | some d => d.Format dateFormat
          | none => v.SinceDate } := by
  induction calls generalizing v with
  | nil => simp [applyOptions, lastOutputFormat, lastSinceDate]
  | cons call calls ih =>
    cases call with
    | outputFormat s =>
      simp only [List.map_cons, applyOptions, ih, OptionCall.toOption, OptionOutputFormat,
        lastOutputFormat, lastSinceDate]
      cases lastOutputFormat calls <;> simp [Option.orElse]
    | sinceDate d =>
      simp only [List.map_cons, applyOptions, ih, OptionCall.toOption, OptionSinceDate,
        lastOutputFormat, lastSinceDate]
      cases lastSinceDate calls <;> simp [Option.orElse]

theorem request_of_Answers (std : Stdlib) (service : domainDiscoveryServiceOp)
    (domainTerms subdomainTerms : Option SearchTerms) (opts : List RequestOption)
    (resp : HTTPResponse) (body : Bytes)
    (h : ¬ failsValidation domainTerms subdomainTerms)
    (ht : Answers std service (envelope service domainTerms subdomainTerms opts) resp body) :
    (service.request std domainTerms subdomainTerms opts).1 = (some ⟨some resp, body⟩, none) := by
  obtain ⟨requestBody, req, hm, hn, hd⟩ := ht
  rw [request_of_valid std service domainTerms subdomainTerms opts h]
  simp [hm, hn, hd]

theorem request_of_TransportFails (std : Stdlib) (service : domainDiscoveryServiceOp)
    (domainTerms subdomainTerms : Option SearchTerms) (opts : List RequestOption)
    (resp : Option HTTPResponse) (written : Bytes) (err : OtherError)
    (h : ¬ failsValidation domainTerms subdomainTerms)
    (ht : TransportFails std service (envelope service domainTerms subdomainTerms opts)
      resp written err) :
    (service.request std domainTerms subdomainTerms opts).1 =
      (some ⟨resp, written⟩, some (.other err)) := by
  obtain ⟨requestBody, req, hm, hn, hd⟩ := ht
  rw [request_of_valid std service domainTerms subdomainTerms opts h]
  simp [hm, hn, hd]

theorem request_ok_inv (std : Stdlib) (service : domainDiscoveryServiceOp)
    (domainTerms subdomainTerms : Option SearchTerms) (opts : List RequestOption)
    (r : Option Response)
    (h : (service.request std domainTerms subdomainTerms opts).1 = (r, none)) :
    ¬ failsValidation domainTerms subdomainTerms ∧
      ∃ resp body, r = some ⟨some resp, body⟩ ∧
        Answers std service (envelope service domainTerms subdomainTerms opts) resp body := by
  by_cases hv : failsValidation domainTerms subdomainTerms
  · rw [request_of_failsValidation std service domainTerms subdomainTerms opts hv] at h
    simp at h
  · refine ⟨hv, ?_⟩
    rw [request_of_valid std service domainTerms subdomainTerms opts hv] at h
    cases hm : std.jsonMarshal (envelope service domainTerms subdomainTerms opts) with
    | error err => simp [hm] at h
    | ok requestBody =>
      cases hn : service.newRequest requestBody with
      | error err => simp [hm, hn] at h
      | ok req =>
        cases hd : service.client.Do req with
        | fail resp b err => simp [hm, hn, hd] at h
        | ok resp b =>
          simp [hm, hn, hd] at h
          exact ⟨resp, b, h.symm, requestBody, req, hm, hn, hd⟩

theorem envelope_Get (std : Stdlib) (service : domainDiscoveryServiceOp)
    (domainTerms subdomainTerms : Option SearchTerms) (opts : List RequestOption) :
    envelope service domainTerms subdomainTerms (opts ++ [OptionOutputFormat std "JSON"]) =
      { envelope service domainTerms subdomainTerms opts with OutputFormat := "JSON" } := by
  rw [envelope_append_one]
  simp [OptionOutputFormat, ToUpper_JSON]

/-! ## The library models against the core library -/

theorem decDigits_fuel (fuel₁ fuel₂ n : Nat) (h₁ : n ≤ fuel₁) (h₂ : n ≤ fuel₂) :
    decDigits fuel₁ n = decDigits fuel₂ n := by
  induction fuel₁ generalizing fuel₂ n with
  | zero =>
    obtain rfl : n = 0 := by omega
    cases fuel₂ <;> simp [decDigits]
  | succ f ih =>
    cases fuel₂ with
    | zero =>
      obtain rfl : n = 0 := by omega
      simp [decDigits]
    | succ g =>
      simp only [decDigits]
      split
      · rfl
      · rw [ih g (n / 10) (by omega) (by omega)]

/-- The digits of a number: one digit below ten, else the digits of the tenth part followed by
the last digit; the fuel of `decDigits` never runs out. -/
theorem natDigits_eq (n : Nat) :
    natDigits n = if n < 10 then [digitChar n] else natDigits (n / 10) ++ [digitChar n] := by
  unfold natDigits
  cases n with
  | zero => simp [decDigits]
  | succ m =>
    simp only [decDigits]
    split
    · rfl
    · rw [decDigits_fuel m ((m + 1) / 10) ((m + 1) / 10) (by omega) (le_refl _)]

theorem digitChar_eq_core (n : Nat) : digitChar n = Nat.digitChar (n % 10) := by
  have h : ∀ k, k < 10 → Char.ofNat (48 + k) = Nat.digitChar k := by decide
  exact h (n % 10) (Nat.mod_lt n (by decide))

theorem toDigitsCore_eq_natDigits (fuel n : Nat) (ds : List Char) (h : n < fuel) :
    Nat.toDigitsCore 10 fuel n ds = natDigits n ++ ds := by
  induction fuel generalizing n ds with
  | zero => omega
  | succ f ih =>
    rw [natDigits_eq]
    simp only [Nat.toDigitsCore]
    by_cases h10 : n < 10
    · rw [if_pos (by omega), if_pos h10, digitChar_eq_core]
      rfl
    · rw [if_neg (by omega), if_neg h10, ih (n / 10) _ (by omega), digitChar_eq_core]
      simp

/-- The decimal rendering of the model is the one of the core library. -/
theorem formatInt_eq_toString (x : Int) : formatInt x = toString x := by
  cases x with
  | ofNat m =>
    show String.mk (_ ++ natDigits m) = String.mk (Nat.toDigits 10 m)
    rw [if_neg (by simp), Nat.toDigits, toDigitsCore_eq_natDigits _ _ _ (Nat.lt_succ_self m)]
    simp
  | negSucc m =>
    show String.mk (_ ++ natDigits (m + 1)) = "-" ++ String.mk (Nat.toDigits 10 (m + 1))
    rw [if_pos (Int.negSucc_lt_zero m), Nat.toDigits,
      toDigitsCore_eq_natDigits _ _ _ (Nat.lt_succ_self _)]
    simp
    rfl

/-! ## Argument validation -/

/-- C1: the request step shared by Get and GetRaw fails with an ArgError exactly when the term
pair fails the validation of section 4.1, which is exactly when the two term sets have no Include
entry in total (Exclude entries are not counted); the error then is the ArgError named
`domainTerms/subdomainTerms`, returned with a nil response, and its text is
`invalid argument: "domainTerms/subdomainTerms" must contain at least one Include term`. -/
theorem request_argError_iff (std : Stdlib) (service : domainDiscoveryServiceOp)
    (domainTerms subdomainTerms : Option SearchTerms) (opts : List RequestOption) :
    ((∃ a, (service.request std domainTerms subdomainTerms opts).1.2 = some (.arg a)) ↔
        failsValidation domainTerms subdomainTerms) ∧
      (failsValidation domainTerms subdomainTerms →
        (service.request std domainTerms subdomainTerms opts).1 =
          (none, some (.arg ⟨"domainTerms/subdomainTerms",
            "must contain at least one Include term"⟩))) ∧
      (failsValidation domainTerms subdomainTerms ↔
        includeCount domainTerms + includeCount subdomainTerms = 0) ∧
      (Error.arg ⟨"domainTerms/subdomainTerms", "must contain at least one Include term"⟩).Error =
        "invalid argument: \"domainTerms/subdomainTerms\" must contain at least one Include term" := by
  refine ⟨⟨?_, ?_⟩, ?_, ?_, ?_⟩
  · rintro ⟨a, ha⟩
    by_contra hv
    rw [request_of_valid std service domainTerms subdomainTerms opts hv] at ha
    cases hm : std.jsonMarshal (envelope service domainTerms subdomainTerms opts) with
    | error err => simp [hm] at ha
    | ok requestBody =>
      cases hn : service.newRequest requestBody with
      | error err => simp [hm, hn] at ha
      | ok req =>
        cases hd : service.client.Do req <;> simp [hm, hn, hd] at ha
  · intro hv
    rw [request_of_failsValidation std service domainTerms subdomainTerms opts hv]
    exact ⟨_, rfl⟩
  · intro hv
    rw [request_of_failsValidation std service domainTerms subdomainTerms opts hv]
  · cases domainTerms <;> cases subdomainTerms <;> simp [failsValidation, includeCount]
  · decide

/-- C2: when the term pair fails validation, Get returns a nil result, a nil raw response and
the argument error, GetRaw returns a nil raw response and the argument error, and the trace of
both is empty: no option was applied, nothing was serialised, built or sent. -/
theorem Get_GetRaw_of_failsValidation (std : Stdlib) (service : domainDiscoveryServiceOp)
    (domainTerms subdomainTerms : Option SearchTerms) (opts : List RequestOption)
    (h : failsValidation domainTerms subdomainTerms) :
    service.Get std domainTerms subdomainTerms opts =
        ((none, none, some (.arg ⟨"domainTerms/subdomainTerms",
          "must contain at least one Include term"⟩)), []) ∧
      service.GetRaw std domainTerms subdomainTerms opts =
        ((none, some (.arg ⟨"domainTerms/subdomainTerms",
          "must contain at least one Include term"⟩)), []) := by
  constructor
  · simp only [domainDiscoveryServiceOp.Get]
    rw [request_of_failsValidation std service domainTerms subdomainTerms _ h]
  · simp only [domainDiscoveryServiceOp.GetRaw]
    rw [request_of_failsValidation std service domainTerms subdomainTerms _ h]

/-- The test `invalid argument1`: only Exclude terms, against the test server. -/
theorem Get_GetRaw_of_failsValidation_witness :
    failsValidation (some ⟨[], ["whoisxmlapi.com"]⟩) none ∧
      ((newAPI "/DomainDiscovery/error").Get testStdlib (some ⟨[], ["whoisxmlapi.com"]⟩) none
          [OptionOutputFormat testStdlib "JSON"] =
        ((none, none, some (.arg ⟨"domainTerms/subdomainTerms",
          "must contain at least one Include term"⟩)), []) ∧
      (newAPI "/DomainDiscovery/error").GetRaw testStdlib (some ⟨[], ["whoisxmlapi.com"]⟩) none
          [OptionOutputFormat testStdlib "JSON"] =
        ((none, some (.arg ⟨"domainTerms/subdomainTerms",
          "must contain at least one Include term"⟩)), [])) :=
  ⟨by decide, Get_GetRaw_of_failsValidation testStdlib (newAPI "/DomainDiscovery/error")
    (some ⟨[], ["whoisxmlapi.com"]⟩) none [OptionOutputFormat testStdlib "JSON"] (by decide)⟩

/-! ## The envelope handed to the transport -/

/-- C3: for a valid term pair and any options of the caller, Get hands exactly one envelope
over for transmission; it is the envelope the caller's options produce with OutputFormat
replaced by `JSON`, so its OutputFormat is `JSON` and its SinceDate is the caller's; and any
request Get sends was built from the serialisation of that envelope. -/
theorem Get_forces_JSON (std : Stdlib) (service : domainDiscoveryServiceOp)
    (domainTerms subdomainTerms : Option SearchTerms) (opts : List RequestOption)
    (h : ¬ failsValidation domainTerms subdomainTerms) :
    ∃ v, marshalled (service.Get std domainTerms subdomainTerms opts).2 = [v] ∧
      v = { envelope service domainTerms subdomainTerms opts with OutputFormat := "JSON" } ∧
      v.OutputFormat = "JSON" ∧
      v.SinceDate = (envelope service domainTerms subdomainTerms opts).SinceDate ∧
      ∀ req ∈ sent (service.Get std domainTerms subdomainTerms opts).2,
        ∃ requestBody, std.jsonMarshal v = .ok requestBody ∧
          service.newRequest requestBody = .ok req := by
  have ht := trace_request_of_valid std service domainTerms subdomainTerms
    (opts ++ [OptionOutputFormat std "JSON"]) h
  rw [envelope_append_one] at ht
  rw [trace_Get]
  exact ⟨_, ht.1, by simp [OptionOutputFormat, ToUpper_JSON], rfl, rfl, ht.2⟩

/-- The call of `GetData` in example.go: domain terms `amazon.*` with `OptionOutputFormat("XML")`
and a since date, on the test server. -/
theorem Get_forces_JSON_witness :
    ¬ failsValidation (some ⟨["amazon.*"], []⟩) none ∧
      ∃ v, marshalled ((newAPI "/DomainDiscovery/ok").Get testStdlib (some ⟨["amazon.*"], []⟩)
          none [OptionOutputFormat testStdlib "XML",
            OptionSinceDate ⟨2022, 1, 1, by decide, by decide⟩]).2 = [v] ∧
        v = { envelope (newAPI "/DomainDiscovery/ok") (some ⟨["amazon.*"], []⟩) none
                [OptionOutputFormat testStdlib "XML",
                  OptionSinceDate ⟨2022, 1, 1, by decide, by decide⟩] with
              OutputFormat := "JSON" } ∧
        v.OutputFormat = "JSON" ∧
        v.SinceDate = (envelope (newAPI "/DomainDiscovery/ok") (some ⟨["amazon.*"], []⟩) none
          [OptionOutputFormat testStdlib "XML",
            OptionSinceDate ⟨2022, 1, 1, by decide, by decide⟩]).SinceDate ∧
        ∀ req ∈ sent ((newAPI "/DomainDiscovery/ok").Get testStdlib (some ⟨["amazon.*"], []⟩)
            none [OptionOutputFormat testStdlib "XML",
              OptionSinceDate ⟨2022, 1, 1, by decide, by decide⟩]).2,
          ∃ requestBody, testStdlib.jsonMarshal v = .ok requestBody ∧
            (newAPI "/DomainDiscovery/ok").newRequest requestBody = .ok req :=
  ⟨by decide, Get_forces_JSON testStdlib (newAPI "/DomainDiscovery/ok")
    (some ⟨["amazon.*"], []⟩) none
    [OptionOutputFormat testStdlib "XML", OptionSinceDate ⟨2022, 1, 1, by decide, by decide⟩]
    (by decide)⟩

/-- C4: for a valid term pair and any list of option calls, GetRaw hands exactly one envelope
over for transmission: the default envelope with the options applied in the order given and
nothing else. Its OutputFormat is the uppercased argument of the last OptionOutputFormat,
whatever that argument is: on an argument of ASCII characters it is the argument with each
letter `a..z` replaced by its capital, as `Char.toUpper` of the core library does, on any other
argument it is `unicode.ToUpper` mapped over the argument; it is the default `JSON` when the
list holds no OptionOutputFormat; and any request GetRaw sends was built from the serialisation
of that envelope. -/
theorem GetRaw_keeps_outputFormat (std : Stdlib) (service : domainDiscoveryServiceOp)
    (domainTerms subdomainTerms : Option SearchTerms) (calls : List OptionCall)
    (h : ¬ failsValidation domainTerms subdomainTerms) :
    ∃ v, marshalled (service.GetRaw std domainTerms subdomainTerms
          (calls.map (OptionCall.toOption std))).2 = [v] ∧
      v = (applyOptions (calls.map (OptionCall.toOption std))
        ⟨service.client.apiKey, domainTerms, subdomainTerms, "JSON", ""⟩).1 ∧
      v.OutputFormat =
        (match lastOutputFormat calls with
        | some s => ToUpper std s
        | none => "JSON") ∧
      (∀ s, lastOutputFormat calls = some s → (∀ c ∈ s.data, c.toNat < 128) →
        v.OutputFormat = String.mk (s.data.map Char.toUpper)) ∧
      (∀ s, lastOutputFormat calls = some s → (¬ ∀ c ∈ s.data, c.toNat < 128) →
        v.OutputFormat = String.mk (s.data.map std.unicodeToUpper)) ∧
      (lastOutputFormat calls = none → v.OutputFormat = "JSON") ∧
      v.APIKey = service.client.apiKey ∧ v.Domains = domainTerms ∧
      v.Subdomains = subdomainTerms ∧
      ∀ req ∈ sent (service.GetRaw std domainTerms subdomainTerms
          (calls.map (OptionCall.toOption std))).2,
        ∃ requestBody, std.jsonMarshal v = .ok requestBody ∧
          service.newRequest requestBody = .ok req := by
  have ht := trace_request_of_valid std service domainTerms subdomainTerms
    (calls.map (OptionCall.toOption std)) h
  have hof : (envelope service domainTerms subdomainTerms
      (calls.map (OptionCall.toOption std))).OutputFormat =
      (match lastOutputFormat calls with
      | some s => ToUpper std s
      | none => "JSON") := by
    simp only [envelope, defaultEnvelope, applyOptions_calls]
  rw [trace_GetRaw]
  refine ⟨_, ht.1, rfl, hof, ?_, ?_, ?_, ?_, ?_, ?_, ht.2⟩
  · intro s hs hascii
    have hall : s.data.all (fun c => c.toNat < 128) = true := by
      simpa [List.all_eq_true] using hascii
    rw [hof, hs]
    show ToUpper std s = _
    unfold ToUpper
    rw [if_pos hall]
    rfl
  · intro s hs hascii
    have hall : ¬ s.data.all (fun c => c.toNat < 128) = true := by
      simpa [List.all_eq_true] using hascii
    rw [hof, hs]
    show ToUpper std s = _
    unfold ToUpper
    rw [if_neg hall]
  · intro hs
    rw [hof, hs]
  · simp only [envelope, defaultEnvelope, applyOptions_calls]
  · simp only [envelope, defaultEnvelope, applyOptions_calls]
  · simp only [envelope, defaultEnvelope, applyOptions_calls]

/-- GetRaw on the test server: with the three option calls `xml`, a since date and `csv`, the
last output format being neither JSON nor XML, the one envelope handed over carries `CSV`; with
the since date alone, as in `GetRawData` of example.go, it carries the default `JSON`. -/
theorem GetRaw_keeps_outputFormat_witness :
    ¬ failsValidation (some ⟨["amazon.com"], []⟩) (some ⟨["aws*"], ["*portal*", "*beta*"]⟩) ∧
      (∃ v, marshalled ((newAPI "/DomainDiscovery/ok").GetRaw testStdlib
            (some ⟨["amazon.com"], []⟩) (some ⟨["aws*"], ["*portal*", "*beta*"]⟩)
            ([OptionCall.outputFormat "xml",
              OptionCall.sinceDate ⟨2022, 1, 1, by decide, by decide⟩,
              OptionCall.outputFormat "csv"].map (OptionCall.toOption testStdlib))).2 = [v] ∧
          v = ⟨"at_LoremIpsumDolorSitAmetConsect", some ⟨["amazon.com"], []⟩,
            some ⟨["aws*"], ["*portal*", "*beta*"]⟩, "CSV", "2022-01-01"⟩ ∧
          v.OutputFormat = "CSV") ∧
      ∃ v, marshalled ((newAPI "/DomainDiscovery/ok").GetRaw testStdlib
            (some ⟨["amazon.com"], []⟩) (some ⟨["aws*"], ["*portal*", "*beta*"]⟩)
            ([OptionCall.sinceDate ⟨2022, 1, 1, by decide, by decide⟩].map
              (OptionCall.toOption testStdlib))).2 = [v] ∧
          v = ⟨"at_LoremIpsumDolorSitAmetConsect", some ⟨["amazon.com"], []⟩,
            some ⟨["aws*"], ["*portal*", "*beta*"]⟩, "JSON", "2022-01-01"⟩ ∧
          v.OutputFormat = "JSON" := by
  refine ⟨by decide, ?_, ?_⟩
  · obtain ⟨v, hm, -, -, hascii, -⟩ :=
      GetRaw_keeps_outputFormat testStdlib (newAPI "/DomainDiscovery/ok")
        (some ⟨["amazon.com"], []⟩) (some ⟨["aws*"], ["*portal*", "*beta*"]⟩)
        [OptionCall.outputFormat "xml",
          OptionCall.sinceDate ⟨2022, 1, 1, by decide, by decide⟩,
          OptionCall.outputFormat "csv"] (by decide)
    have hd : marshalled ((newAPI "/DomainDiscovery/ok").GetRaw testStdlib
        (some ⟨["amazon.com"], []⟩) (some ⟨["aws*"], ["*portal*", "*beta*"]⟩)
        ([OptionCall.outputFormat "xml",
          OptionCall.sinceDate ⟨2022, 1, 1, by decide, by decide⟩,
          OptionCall.outputFormat "csv"].map (OptionCall.toOption testStdlib))).2 =
        [⟨"at_LoremIpsumDolorSitAmetConsect", some ⟨["amazon.com"], []⟩,
          some ⟨["aws*"], ["*portal*", "*beta*"]⟩, "CSV", "2022-01-01"⟩] := by decide
    exact ⟨v, hm, List.head_eq_of_cons_eq (hm.symm.trans hd), hascii "csv" rfl (by decide)⟩
  · obtain ⟨v, hm, -, -, -, -, hnone, -⟩ :=
      GetRaw_keeps_outputFormat testStdlib (newAPI "/DomainDiscovery/ok")
        (some ⟨["amazon.com"], []⟩) (some ⟨["aws*"], ["*portal*", "*beta*"]⟩)
        [OptionCall.sinceDate ⟨2022, 1, 1, by decide, by decide⟩] (by decide)
    have hd : marshalled ((newAPI "/DomainDiscovery/ok").GetRaw testStdlib
        (some ⟨["amazon.com"], []⟩) (some ⟨["aws*"], ["*portal*", "*beta*"]⟩)
        ([OptionCall.sinceDate ⟨2022, 1, 1, by decide, by decide⟩].map
          (OptionCall.toOption testStdlib))).2 =
        [⟨"at_LoremIpsumDolorSitAmetConsect", some ⟨["amazon.com"], []⟩,
          some ⟨["aws*"], ["*portal*", "*beta*"]⟩, "JSON", "2022-01-01"⟩] := by decide
    exact ⟨v, hm, List.head_eq_of_cons_eq (hm.symm.trans hd), hnone rfl⟩

/-! ## Outcomes of Get and GetRaw -/

/-- C5: when the term pair is valid, the transport answers Get's envelope without error (with
any HTTP status) and the body decodes with a non-zero code or a non-empty message, Get returns a
nil result, a nil raw response and the ErrorMessage with exactly the decoded Code and Message,
whose text is `API error: [` followed by the decimal Code, `] ` and the Message. -/
theorem Get_api_error (std : Stdlib) (service : domainDiscoveryServiceOp)
    (domainTerms subdomainTerms : Option SearchTerms) (opts : List RequestOption)
    (resp : HTTPResponse) (body : Bytes) (r : apiResponse)
    (hv : ¬ failsValidation domainTerms subdomainTerms)
    (ht : Answers std service
      { envelope service domainTerms subdomainTerms opts with OutputFormat := "JSON" } resp body)
    (hj : std.jsonDecode body = .ok r)
    (hc : r.toErrorMessage.Code ≠ 0 ∨ r.toErrorMessage.Message ≠ "") :
    (service.Get std domainTerms subdomainTerms opts).1 =
        (none, none, some (.api ⟨r.toErrorMessage.Code, r.toErrorMessage.Message⟩)) ∧
      (Error.api ⟨r.toErrorMessage.Code, r.toErrorMessage.Message⟩).Error =
        "API error: [" ++ formatInt r.toErrorMessage.Code ++ "] " ++ r.toErrorMessage.Message := by
  rw [← envelope_Get std] at ht
  have hr := request_of_Answers std service domainTerms subdomainTerms _ resp body hv ht
  refine ⟨?_, rfl⟩
  simp only [domainDiscoveryServiceOp.Get, hr, parse, hj]
  rw [if_pos (Or.symm hc)]

/-- The test `could not process request`: status 499 with the body `errResp`. -/
theorem Get_api_error_witness :
    (¬ failsValidation (some ⟨["whoisxmlapi*"], []⟩) none) ∧
      ((newAPI "/DomainDiscovery/error").Get testStdlib (some ⟨["whoisxmlapi*"], []⟩) none
          [OptionOutputFormat testStdlib "JSON"]).1 =
        (none, none, some (.api ⟨499, "Test error message."⟩)) ∧
      (Error.api ⟨499, "Test error message."⟩).Error = "API error: [499] Test error message." :=
  ⟨by decide,
    Get_api_error testStdlib (newAPI "/DomainDiscovery/error") (some ⟨["whoisxmlapi*"], []⟩) none
      [OptionOutputFormat testStdlib "JSON"] ⟨499, []⟩ (asciiBytes errResp)
      ⟨⟨[], 0⟩, ⟨499, "Test error message."⟩⟩ (by decide)
      ⟨[], ⟨"POST", "/DomainDiscovery/error", []⟩, rfl, rfl, rfl⟩ rfl (by decide)⟩

/-- C6: Get returns a non-nil parsed result exactly when the term pair is valid, the transport
answers Get's envelope without error (with any HTTP status), the body decodes, the decoded Code
is 0 and the decoded Message is empty; the result then is the decoded DomainsList and
DomainsCount, the raw response is non-nil with the captured body, and the error is nil. -/
theorem Get_result_iff (std : Stdlib) (service : domainDiscoveryServiceOp)
    (domainTerms subdomainTerms : Option SearchTerms) (opts : List RequestOption) :
    ((service.Get std domainTerms subdomainTerms opts).1.1 ≠ none ↔
        ¬ failsValidation domainTerms subdomainTerms ∧
          ∃ resp body r,
            Answers std service
              { envelope service domainTerms subdomainTerms opts with OutputFormat := "JSON" }
              resp body ∧
            std.jsonDecode body = .ok r ∧
            r.toErrorMessage.Code = 0 ∧ r.toErrorMessage.Message = "") ∧
      ∀ resp body r, ¬ failsValidation domainTerms subdomainTerms →
        Answers std service
          { envelope service domainTerms subdomainTerms opts with OutputFormat := "JSON" }
          resp body →
        std.jsonDecode body = .ok r →
        r.toErrorMessage.Code = 0 → r.toErrorMessage.Message = "" →
        (service.Get std domainTerms subdomainTerms opts).1 =
          (some ⟨r.toDomainDiscoveryResponse.DomainsList,
              r.toDomainDiscoveryResponse.DomainsCount⟩,
            some ⟨some resp, body⟩, none) := by
  have key : ∀ resp body r, ¬ failsValidation domainTerms subdomainTerms →
      Answers std service
        { envelope service domainTerms subdomainTerms opts with OutputFormat := "JSON" }
        resp body →
      std.jsonDecode body = .ok r →
      r.toErrorMessage.Code = 0 → r.toErrorMessage.Message = "" →
      (service.Get std domainTerms subdomainTerms opts).1 =
        (some ⟨r.toDomainDiscoveryResponse.DomainsList,
            r.toDomainDiscoveryResponse.DomainsCount⟩,
          some ⟨some resp, body⟩, none) := by
    intro resp body r hv ht hj hc hm
    rw [← envelope_Get std] at ht
    have hr := request_of_Answers std service domainTerms subdomainTerms _ resp body hv ht
    simp only [domainDiscoveryServiceOp.Get, hr, parse, hj]
    rw [if_neg (by simp [hc, hm])]
  refine ⟨⟨?_, ?_⟩, key⟩
  · intro hne
    simp only [domainDiscoveryServiceOp.Get] at hne
    split at hne
    · simp at hne
    · simp at hne
    · next resp0 hreq =>
      obtain ⟨hv, resp, body, hresp, ht⟩ :=
        request_ok_inv std service domainTerms subdomainTerms _ (some resp0) hreq
      rw [envelope_Get std] at ht
      refine ⟨hv, resp, body, ?_⟩
      simp only [Option.some.injEq] at hresp
      subst hresp
      simp only [parse] at hne
      cases hj : std.jsonDecode body with
      | error cause => simp [hj] at hne
      | ok r =>
        simp only [hj] at hne
        split at hne
        · simp at hne
        · next hcond =>
          simp only [not_or, not_not] at hcond
          exact ⟨r, ht, rfl, hcond.2, hcond.1⟩
  · rintro ⟨hv, resp, body, r, ht, hj, hc, hm⟩
    rw [key resp body r hv ht hj hc hm]
    simp

/-- The test `successful request`: status 200 with a body of five names. -/
theorem Get_result_iff_witness :
    ((newAPI "/DomainDiscovery/ok").Get testStdlib (some ⟨["whoisxmlapi*"], []⟩) none
        [OptionOutputFormat testStdlib "JSON"]).1 =
      (some ⟨["a.com", "b.com", "c.com", "d.com", "e.com"], 5⟩,
        some ⟨some ⟨200, []⟩, asciiBytes respOK⟩, none) :=
  (Get_result_iff testStdlib (newAPI "/DomainDiscovery/ok") (some ⟨["whoisxmlapi*"], []⟩) none
      [OptionOutputFormat testStdlib "JSON"]).2 ⟨200, []⟩ (asciiBytes respOK)
    ⟨⟨["a.com", "b.com", "c.com", "d.com", "e.com"], 5⟩, ⟨0, ""⟩⟩ (by decide)
    ⟨[], ⟨"POST", "/DomainDiscovery/ok", []⟩, rfl, rfl, rfl⟩ rfl rfl rfl

/-- C7: when the term pair is valid and the transport answers GetRaw's envelope without error,
GetRaw returns the raw response with the delivered body in every case; its error has the text
`API failed with status code: ` followed by the status in decimal exactly when the status is
outside 200..299, and is nil on a status within 200..299; and GetRaw does not depend on the JSON
decoder, so no body is ever decoded. -/
theorem GetRaw_status (std : Stdlib) (service : domainDiscoveryServiceOp)
    (domainTerms subdomainTerms : Option SearchTerms) (opts : List RequestOption)
    (resp : HTTPResponse) (body : Bytes)
    (hv : ¬ failsValidation domainTerms subdomainTerms)
    (ht : Answers std service (envelope service domainTerms subdomainTerms opts) resp body) :
    (service.GetRaw std domainTerms subdomainTerms opts).1.1 = some ⟨some resp, body⟩ ∧
      ((∃ e, (service.GetRaw std domainTerms subdomainTerms opts).1.2 = some e ∧
          e.Error = "API failed with status code: " ++ formatInt resp.StatusCode) ↔
        ¬ (200 ≤ resp.StatusCode ∧ resp.StatusCode ≤ 299)) ∧
      ((200 ≤ resp.StatusCode ∧ resp.StatusCode ≤ 299) →
        (service.GetRaw std domainTerms subdomainTerms opts).1.2 = none) ∧
      (¬ (200 ≤ resp.StatusCode ∧ resp.StatusCode ≤ 299) →
        ∃ e, (service.GetRaw std domainTerms subdomainTerms opts).1.2 = some e ∧
          e.Error = "API failed with status code: " ++ toString resp.StatusCode) ∧
      ∀ decode, service.GetRaw { std with jsonDecode := decode } domainTerms subdomainTerms opts =
        service.GetRaw std domainTerms subdomainTerms opts := by
  have hr := request_of_Answers std service domainTerms subdomainTerms opts resp body hv ht
  by_cases hs : 200 ≤ resp.StatusCode ∧ resp.StatusCode ≤ 299
  · have hg : (service.GetRaw std domainTerms subdomainTerms opts).1 =
        (some ⟨some resp, body⟩, none) := by
      simp only [domainDiscoveryServiceOp.GetRaw, hr, checkResponse, if_pos hs]
    refine ⟨by rw [hg], ?_, fun _ => by rw [hg], fun h => absurd hs h, fun _ => rfl⟩
    rw [hg]
    simp [hs]
  · have hg : (service.GetRaw std domainTerms subdomainTerms opts).1 =
        (some ⟨some resp, body⟩,
          some (.other ⟨"API failed with status code: " ++ formatInt resp.StatusCode⟩)) := by
      simp only [domainDiscoveryServiceOp.GetRaw, hr, checkResponse, if_neg hs]
    refine ⟨by rw [hg], ?_, fun h => absurd h hs, fun _ => ?_, fun _ => rfl⟩
    · rw [hg]
      simp only [hs, not_false_eq_true, iff_true]
      exact ⟨_, rfl, rfl⟩
    · rw [hg, ← formatInt_eq_toString]
      exact ⟨_, rfl, rfl⟩

/-- The tests of GetRaw `non 200 status code` (status 500 with a body that is not JSON: the raw
response is returned with the error text `API failed with status code: 500`), `could not
process request` (status 499, text `API failed with status code: 499`), `unparsable response`
(status 200 with a body that is not JSON) and `partial response 1` (status 200 with a truncated
JSON body): on status 200 the body is returned as it is, without error. -/
theorem GetRaw_status_witness :
    (¬ failsValidation (some ⟨["whoisxmlapi*"], []⟩) none) ∧
      (((newAPI "/DomainDiscovery/500").GetRaw testStdlib (some ⟨["whoisxmlapi*"], []⟩)
            none []).1.1 = some ⟨some ⟨500, []⟩, asciiBytes respUnparsable⟩ ∧
        ∃ e, ((newAPI "/DomainDiscovery/500").GetRaw testStdlib (some ⟨["whoisxmlapi*"], []⟩)
              none []).1.2 = some e ∧
          e.Error = "API failed with status code: 500") ∧
      (((newAPI "/DomainDiscovery/error").GetRaw testStdlib (some ⟨["whoisxmlapi*"], []⟩)
            none []).1.1 = some ⟨some ⟨499, []⟩, asciiBytes errResp⟩ ∧
        ∃ e, ((newAPI "/DomainDiscovery/error").GetRaw testStdlib (some ⟨["whoisxmlapi*"], []⟩)
              none []).1.2 = some e ∧
          e.Error = "API failed with status code: 499") ∧
      ((newAPI "/DomainDiscovery/unparsable").GetRaw testStdlib (some ⟨["whoisxmlapi*"], []⟩)
          none []).1 = (some ⟨some ⟨200, []⟩, asciiBytes respUnparsable⟩, none) ∧
      ((newAPI "/DomainDiscovery/partial").GetRaw testStdlib (some ⟨["whoisxmlapi*"], []⟩)
          none []).1 = (some ⟨some ⟨200, []⟩, respPartial⟩, none) := by
  have h500 := GetRaw_status testStdlib (newAPI "/DomainDiscovery/500")
    (some ⟨["whoisxmlapi*"], []⟩) none [] ⟨500, []⟩ (asciiBytes respUnparsable) (by decide)
    ⟨[], ⟨"POST", "/DomainDiscovery/500", []⟩, rfl, rfl, rfl⟩
  have h499 := GetRaw_status testStdlib (newAPI "/DomainDiscovery/error")
    (some ⟨["whoisxmlapi*"], []⟩) none [] ⟨499, []⟩ (asciiBytes errResp) (by decide)
    ⟨[], ⟨"POST", "/DomainDiscovery/error", []⟩, rfl, rfl, rfl⟩
  have h200 := GetRaw_status testStdlib (newAPI "/DomainDiscovery/unparsable")
    (some ⟨["whoisxmlapi*"], []⟩) none [] ⟨200, []⟩ (asciiBytes respUnparsable) (by decide)
    ⟨[], ⟨"POST", "/DomainDiscovery/unparsable", []⟩, rfl, rfl, rfl⟩
  have hpart := GetRaw_status testStdlib (newAPI "/DomainDiscovery/partial")
    (some ⟨["whoisxmlapi*"], []⟩) none [] ⟨200, []⟩ respPartial (by decide)
    ⟨[], ⟨"POST", "/DomainDiscovery/partial", []⟩, rfl, rfl, rfl⟩
  refine ⟨by decide, ⟨h500.1, ?_⟩, ⟨h499.1, ?_⟩, ?_, ?_⟩
  · obtain ⟨e, he, htext⟩ := h500.2.1.2 (by decide)
    exact ⟨e, he, htext.trans (by decide)⟩
  · obtain ⟨e, he, htext⟩ := h499.2.1.2 (by decide)
    exact ⟨e, he, htext.trans (by decide)⟩
  · exact Prod.ext h200.1 (h200.2.2.1 (by decide))
  · exact Prod.ext hpart.1 (hpart.2.2.1 (by decide))

/-- C8: for a valid term pair, when the transport fails, Get returns a nil result, the raw
response with the bytes written so far and the error of the transport unchanged, and GetRaw
returns that raw response and that error; when the transport answers Get's envelope without
error (with any HTTP status) and the body does not decode, Get returns a nil result, the raw
response with the full body, and an error whose text is `cannot parse response: ` followed by the
text of the cause it wraps. -/
theorem failure_keeps_response (std : Stdlib) (service : domainDiscoveryServiceOp)
    (domainTerms subdomainTerms : Option SearchTerms) (opts : List RequestOption)
    (hv : ¬ failsValidation domainTerms subdomainTerms) :
    (∀ resp written err,
        TransportFails std service
          { envelope service domainTerms subdomainTerms opts with OutputFormat := "JSON" }
          resp written err →
        (service.Get std domainTerms subdomainTerms opts).1 =
            (none, some ⟨resp, written⟩, some (.other err)) ∧
          (Error.other err).Error = err.text) ∧
      (∀ resp written err,
        TransportFails std service (envelope service domainTerms subdomainTerms opts)
          resp written err →
        (service.GetRaw std domainTerms subdomainTerms opts).1 =
            (some ⟨resp, written⟩, some (.other err)) ∧
          (Error.other err).Error = err.text) ∧
      ∀ resp body cause,
        Answers std service
          { envelope service domainTerms subdomainTerms opts with OutputFormat := "JSON" }
          resp body →
        std.jsonDecode body = .error cause →
        (service.Get std domainTerms subdomainTerms opts).1 =
            (none, some ⟨some resp, body⟩, some (.wrap "cannot parse response: " cause)) ∧
          (Error.wrap "cannot parse response: " cause).Error =
            "cannot parse response: " ++ cause.text := by
  refine ⟨?_, ?_, ?_⟩
  · intro resp written err ht
    rw [← envelope_Get std] at ht
    have hr := request_of_TransportFails std service domainTerms subdomainTerms _ resp written
      err hv ht
    refine ⟨?_, rfl⟩
    simp only [domainDiscoveryServiceOp.Get, hr]
  · intro resp written err ht
    have hr := request_of_TransportFails std service domainTerms subdomainTerms _ resp written
      err hv ht
    refine ⟨?_, rfl⟩
    simp only [domainDiscoveryServiceOp.GetRaw, hr]
  · intro resp body cause ht hj
    rw [← envelope_Get std] at ht
    have hr := request_of_Answers std service domainTerms subdomainTerms _ resp body hv ht
    refine ⟨?_, rfl⟩
    simp only [domainDiscoveryServiceOp.Get, hr, parse, hj]

/-- The tests `non 200 status code` (status 500 with an XML declaration as body) and
`partial response 2` (the read of the body fails) of Get. -/
theorem failure_keeps_response_witness :
    (¬ failsValidation (some ⟨["whoisxmlapi*"], []⟩) none) ∧
      (((newAPI "/DomainDiscovery/500").Get testStdlib (some ⟨["whoisxmlapi*"], []⟩) none
            [OptionOutputFormat testStdlib "JSON"]).1 =
          (none, some ⟨some ⟨500, []⟩, asciiBytes respUnparsable⟩,
            some (.wrap "cannot parse response: "
              ⟨"invalid character '<' looking for beginning of value"⟩)) ∧
        (Error.wrap "cannot parse response: "
            ⟨"invalid character '<' looking for beginning of value"⟩).Error =
          "cannot parse response: " ++ "invalid character '<' looking for beginning of value") ∧
      (((newAPI "/DomainDiscovery/partial2").Get testStdlib (some ⟨["whoisxmlapi*"], []⟩) none
            [OptionOutputFormat testStdlib "JSON"]).1 =
          (none, some ⟨some ⟨200, []⟩, (asciiBytes respOK).take 60⟩,
            some (.other ⟨"cannot read response: unexpected EOF"⟩)) ∧
        (Error.other ⟨"cannot read response: unexpected EOF"⟩).Error =
          "cannot read response: unexpected EOF") :=
  ⟨by decide,
    (failure_keeps_response testStdlib (newAPI "/DomainDiscovery/500")
      (some ⟨["whoisxmlapi*"], []⟩) none [OptionOutputFormat testStdlib "JSON"]
      (by decide)).2.2 ⟨500, []⟩ (asciiBytes respUnparsable)
      ⟨"invalid character '<' looking for beginning of value"⟩
      ⟨[], ⟨"POST", "/DomainDiscovery/500", []⟩, rfl, rfl, rfl⟩ rfl,
    (failure_keeps_response testStdlib (newAPI "/DomainDiscovery/partial2")
      (some ⟨["whoisxmlapi*"], []⟩) none [OptionOutputFormat testStdlib "JSON"]
      (by decide)).1 (some ⟨200, []⟩) ((asciiBytes respOK).take 60)
      ⟨"cannot read response: unexpected EOF"⟩
      ⟨[], ⟨"POST", "/DomainDiscovery/partial2", []⟩, rfl, rfl, rfl⟩⟩

/-! ## Options -/

theorem natDigits_of_lt_10 (n : Nat) (h : n < 10) : natDigits n = [digitChar n] := by
  rw [natDigits_eq, if_pos h]

theorem natDigits_of_lt_100 (n : Nat) (h₁ : 10 ≤ n) (h₂ : n < 100) :
    natDigits n = [digitChar (n / 10), digitChar n] := by
  rw [natDigits_eq, if_neg (by omega), natDigits_of_lt_10 (n / 10) (by omega)]
  rfl

theorem natDigits_of_lt_1000 (n : Nat) (h₁ : 100 ≤ n) (h₂ : n < 1000) :
    natDigits n = [digitChar (n / 100), digitChar (n / 10), digitChar n] := by
  rw [natDigits_eq, if_neg (by omega), natDigits_of_lt_100 (n / 10) (by omega) (by omega),
    Nat.div_div_eq_div_mul]
  rfl

theorem natDigits_of_lt_10000 (n : Nat) (h₁ : 1000 ≤ n) (h₂ : n < 10000) :
    natDigits n =
      [digitChar (n / 1000), digitChar (n / 100), digitChar (n / 10), digitChar n] := by
  rw [natDigits_eq, if_neg (by omega), natDigits_of_lt_1000 (n / 10) (by omega) (by omega),
    Nat.div_div_eq_div_mul, Nat.div_div_eq_div_mul]
  rfl

theorem digitChar_of_div_eq_zero (n k : Nat) (h : n / k = 0) : digitChar (n / k) = '0' := by
  rw [h]
  rfl

theorem appendInt_four (n : Nat) (h : n < 10000) :
    appendInt (n : Int) 4 =
      [digitChar (n / 1000), digitChar (n / 100), digitChar (n / 10), digitChar n] := by
  have hneg : ¬ ((n : Int) < 0) := by omega
  simp only [appendInt, if_neg hneg, Int.natAbs_ofNat, List.nil_append]
  by_cases h₁ : n < 10
  · rw [natDigits_of_lt_10 n h₁, digitChar_of_div_eq_zero n 1000 (by omega),
      digitChar_of_div_eq_zero n 100 (by omega), digitChar_of_div_eq_zero n 10 (by omega)]
    rfl
  · by_cases h₂ : n < 100
    · rw [natDigits_of_lt_100 n (by omega) h₂, digitChar_of_div_eq_zero n 1000 (by omega),
        digitChar_of_div_eq_zero n 100 (by omega)]
      rfl
    · by_cases h₃ : n < 1000
      · rw [natDigits_of_lt_1000 n (by omega) h₃, digitChar_of_div_eq_zero n 1000 (by omega)]
        rfl
      · rw [natDigits_of_lt_10000 n (by omega) h]
        rfl

theorem appendInt_two (n : Nat) (h : n < 100) :
    appendInt (n : Int) 2 = [digitChar (n / 10), digitChar n] := by
  have hneg : ¬ ((n : Int) < 0) := by omega
  simp only [appendInt, if_neg hneg, Int.natAbs_ofNat, List.nil_append]
  by_cases h₁ : n < 10
  · rw [natDigits_of_lt_10 n h₁, digitChar_of_div_eq_zero n 10 (by omega)]
    rfl
  · rw [natDigits_of_lt_100 n (by omega) h]
    rfl

theorem formatChunks_dateFormat (t : Time) :
    formatChunks t dateFormat.data =
      appendInt t.year 4 ++ '-' :: (appendInt t.month 2 ++ '-' :: (appendInt t.day 2 ++ [])) :=
  rfl

/-- C9: the option applicators are idempotent: applying `OptionOutputFormat(s)` twice to an
envelope gives the envelope of applying it once, and so does `OptionSinceDate(d)`; and
`OptionOutputFormat("json")` applied once or twice stores `JSON`. -/
theorem options_idempotent (std : Stdlib) (r : domainDiscoveryRequest) (s : String)
    (d : Time) :
    OptionOutputFormat std s (OptionOutputFormat std s r) = OptionOutputFormat std s r ∧
      OptionSinceDate d (OptionSinceDate d r) = OptionSinceDate d r ∧
      (OptionOutputFormat std "json" r).OutputFormat = "JSON" ∧
      (OptionOutputFormat std "json" (OptionOutputFormat std "json" r)).OutputFormat = "JSON" :=
  ⟨rfl, rfl, rfl, rfl⟩

/-- C10, as the claim states it, fails: the first day of the year 10000 is stored with a year
of five digits, in eleven characters. -/
theorem OptionSinceDate_year_10000 :
    (OptionSinceDate ⟨10000, 1, 1, by decide, by decide⟩ ⟨"", none, none, "", ""⟩).SinceDate =
        "10000-01-01" ∧
      (OptionSinceDate ⟨10000, 1, 1, by decide, by decide⟩
        ⟨"", none, none, "", ""⟩).SinceDate.length ≠ 10 := by
  decide

/-- C10, amended: for every date whose year is within 0..9999 and every envelope,
OptionSinceDate stores in SinceDate the ten characters `YYYY-MM-DD`: the four digits of the year,
`-`, the two digits of the month, `-`, the two digits of the day, each zero-padded; and it
leaves the other fields of the envelope as they were. -/
theorem OptionSinceDate_format (d : Time) (v : domainDiscoveryRequest)
    (hy : 0 ≤ d.year ∧ d.year ≤ 9999) :
    (OptionSinceDate d v).SinceDate =
        String.mk [digitChar (d.year.toNat / 1000), digitChar (d.year.toNat / 100),
          digitChar (d.year.toNat / 10), digitChar d.year.toNat, '-',
          digitChar (d.month / 10), digitChar d.month, '-',
          digitChar (d.day / 10), digitChar d.day] ∧
      (OptionSinceDate d v).SinceDate.length = 10 ∧
      (OptionSinceDate d v).APIKey = v.APIKey ∧
      (OptionSinceDate d v).Domains = v.Domains ∧
      (OptionSinceDate d v).Subdomains = v.Subdomains ∧
      (OptionSinceDate d v).OutputFormat = v.OutputFormat := by
  have hs : (OptionSinceDate d v).SinceDate =
      String.mk [digitChar (d.year.toNat / 1000), digitChar (d.year.toNat / 100),
        digitChar (d.year.toNat / 10), digitChar d.year.toNat, '-',
        digitChar (d.month / 10), digitChar d.month, '-',
        digitChar (d.day / 10), digitChar d.day] := by
    have hyear : d.year = ((d.year.toNat : Nat) : Int) := by omega
    have hm := d.month_range
    have hd := d.day_range
    simp only [OptionSinceDate, Time.Format, formatChunks_dateFormat]
    rw [hyear, appendInt_four d.year.toNat (by omega), appendInt_two d.month (by omega),
      appendInt_two d.day (by omega), ← hyear]
    rfl
  refine ⟨hs, ?_, rfl, rfl, rfl, rfl⟩
  rw [hs]
  rfl

/-- The test `sinceDate`: 2021-01-01 00:00 UTC is stored as `2021-01-01`. -/
theorem OptionSinceDate_format_witness :
    ((0 : Int) ≤ 2021 ∧ (2021 : Int) ≤ 9999) ∧
      (OptionSinceDate ⟨2021, 1, 1, by decide, by decide⟩ ⟨"", none, none, "", ""⟩).SinceDate =
        "2021-01-01" :=
  ⟨by decide, (OptionSinceDate_format ⟨2021, 1, 1, by decide, by decide⟩
    ⟨"", none, none, "", ""⟩ (by decide)).1.trans (by decide)⟩

/-! ## Include terms that are empty strings -/

/-- C11, as the claim states it, fails: the domain terms whose only Include entry is the empty
string hold no non-empty Include entry, yet Get and GetRaw pass validation, send the request to
the test server and return its answer without error. -/
theorem empty_string_include_reaches_transport :
    noNonEmptyInclude (some ⟨[""], []⟩) ∧ noNonEmptyInclude none ∧
      ((newAPI "/DomainDiscovery/ok").Get testStdlib (some ⟨[""], []⟩) none []).1 =
        (some ⟨["a.com", "b.com", "c.com", "d.com", "e.com"], 5⟩,
          some ⟨some ⟨200, []⟩, asciiBytes respOK⟩, none) ∧
      sent ((newAPI "/DomainDiscovery/ok").Get testStdlib (some ⟨[""], []⟩) none []).2 =
        [⟨"POST", "/DomainDiscovery/ok", []⟩] ∧
      ((newAPI "/DomainDiscovery/ok").GetRaw testStdlib (some ⟨[""], []⟩) none []).1 =
        (some ⟨some ⟨200, []⟩, asciiBytes respOK⟩, none) ∧
      sent ((newAPI "/DomainDiscovery/ok").GetRaw testStdlib (some ⟨[""], []⟩) none []).2 =
        [⟨"POST", "/DomainDiscovery/ok", []⟩] := by
  decide

/-- C11, amended: for every pair of term sets without any Include entry (the Include lists are
absent or empty), Get and GetRaw fail with the argument error and make no outgoing call; and a
request is sent by Get or GetRaw only if the two term sets carry at least one Include entry. -/
theorem transport_requires_include_entry (std : Stdlib) (service : domainDiscoveryServiceOp)
    (domainTerms subdomainTerms : Option SearchTerms) (opts : List RequestOption) :
    (includeCount domainTerms + includeCount subdomainTerms = 0 →
        service.Get std domainTerms subdomainTerms opts =
            ((none, none, some (.arg ⟨"domainTerms/subdomainTerms",
              "must contain at least one Include term"⟩)), []) ∧
          service.GetRaw std domainTerms subdomainTerms opts =
            ((none, some (.arg ⟨"domainTerms/subdomainTerms",
              "must contain at least one Include term"⟩)), [])) ∧
      (sent (service.Get std domainTerms subdomainTerms opts).2 ≠ [] →
        1 ≤ includeCount domainTerms + includeCount subdomainTerms) ∧
      (sent (service.GetRaw std domainTerms subdomainTerms opts).2 ≠ [] →
        1 ≤ includeCount domainTerms + includeCount subdomainTerms) := by
  have hiff : failsValidation domainTerms subdomainTerms ↔
      includeCount domainTerms + includeCount subdomainTerms = 0 := by
    cases domainTerms <;> cases subdomainTerms <;> simp [failsValidation, includeCount]
  have hGet : failsValidation domainTerms subdomainTerms →
      service.Get std domainTerms subdomainTerms opts =
        ((none, none, some (.arg ⟨"domainTerms/subdomainTerms",
          "must contain at least one Include term"⟩)), []) := by
    intro hv
    simp only [domainDiscoveryServiceOp.Get]
    rw [request_of_failsValidation std service domainTerms subdomainTerms _ hv]
  have hRaw : failsValidation domainTerms subdomainTerms →
      service.GetRaw std domainTerms subdomainTerms opts =
        ((none, some (.arg ⟨"domainTerms/subdomainTerms",
          "must contain at least one Include term"⟩)), []) := by
    intro hv
    simp only [domainDiscoveryServiceOp.GetRaw]
    rw [request_of_failsValidation std service domainTerms subdomainTerms _ hv]
  refine ⟨fun h0 => ⟨hGet (hiff.2 h0), hRaw (hiff.2 h0)⟩, ?_, ?_⟩
  · intro hs
    by_contra hlt
    have h0 : includeCount domainTerms + includeCount subdomainTerms = 0 := by omega
    rw [hGet (hiff.2 h0)] at hs
    exact hs rfl
  · intro hs
    by_contra hlt
    have h0 : includeCount domainTerms + includeCount subdomainTerms = 0 := by omega
    rw [hRaw (hiff.2 h0)] at hs
    exact hs rfl

/-- The test `invalid argument1` of GetRaw: a term set with neither Include nor Exclude
entries, against the test server. -/
theorem transport_requires_include_entry_witness :
    includeCount (some ⟨[], []⟩) + includeCount none = 0 ∧
      (newAPI "/DomainDiscovery/error").Get testStdlib (some ⟨[], []⟩) none
          [OptionOutputFormat testStdlib "JSON"] =
        ((none, none, some (.arg ⟨"domainTerms/subdomainTerms",
          "must contain at least one Include term"⟩)), []) ∧
      (newAPI "/DomainDiscovery/error").GetRaw testStdlib (some ⟨[], []⟩) none
          [OptionOutputFormat testStdlib "JSON"] =
        ((none, some (.arg ⟨"domainTerms/subdomainTerms",
          "must contain at least one Include term"⟩)), []) :=
  ⟨by decide, (transport_requires_include_entry testStdlib (newAPI "/DomainDiscovery/error")
    (some ⟨[], []⟩) none [OptionOutputFormat testStdlib "JSON"]).1 (by decide)⟩

end domaindiscovery
